import Mathlib

/-!
Shallow embedding of the sv2mid converter (`src/main.rs`, `src/utils.rs`,
`src/sv_model.rs`, `src/midly_ext.rs`) and proofs about its timeline
projection, event sequencing, validation and delta-encoding stages.

Modelling conventions:

* Rust `f64` values (`Seconds`, `midi_bpm`, `pan`, `gain`) are modelled as
  exact rationals; `f64` arithmetic as exact rational arithmetic.  Every
  concrete input used below keeps the divergence between exact and binary
  floating-point evaluation many orders of magnitude away from the decision
  boundaries involved, so no statement settled here depends on rounding of
  `f64`.
* A Rust float-to-integer `as` cast truncates toward zero and saturates at the
  target type's bounds.  All float values cast below are non-negative, so
  truncation is `Int.floor`/`Int.toNat`.  For `as u32` (the tempo value) the
  saturation bound is modelled explicitly; for `as usize` (tick counts,
  64-bit) the bound 2^64-1 is unreachable for representable projects and the
  cast is modelled as plain `Int.toNat ∘ Int.floor`.
* Panics (`expect`, `assert!`) over document data are modelled with
  `Except String`; `assert!`s over the configuration (positive bpm,
  ticks-per-beat, sample rate) appear as hypotheses of the theorems that need
  them.
* The source's `AbsoluteTrackEvent` also carries a `seconds: Seconds` field
  that is read only when formatting warning timestamps; it influences neither
  ordering nor validation nor encoding and is omitted from the embedding.
* `eprintln!` warnings are side effects; where a claim is about a diagnostic,
  the count of emissions of that diagnostic is modelled as a function of the
  same data the source branches on.
-/

/-! ### MIDI event data (mirrors the `midly` event kinds used by `main.rs`) -/

inductive MidiMessage where
  | noteOn (key vel : ℕ)
  | noteOff (key vel : ℕ)
  | programChange (program : ℕ)
  | controller (controller value : ℕ)
deriving DecidableEq

inductive MetaMessage where
  | tempo (micros_per_beat : ℕ)
  | midiChannel (channel : ℕ)
  | instrumentName (name : String)
  | text (label : String)
  | endOfTrack
deriving DecidableEq

inductive TrackEventKind where
  | midi (channel : ℕ) (message : MidiMessage)
  | meta (message : MetaMessage)
deriving DecidableEq

/-- `src/midly_ext.rs`: `TrackEventKindExt::is_note_on`. -/
def TrackEventKind.is_note_on : TrackEventKind → Bool
  | .midi _ (.noteOn _ _) => true
  | _ => false

/-- `src/midly_ext.rs`: `TrackEventKindExt::is_note_off`. -/
def TrackEventKind.is_note_off : TrackEventKind → Bool
  | .midi _ (.noteOff _ _) => true
  | _ => false

/-- The `(channel, key)` pair a note event is keyed on in the overlap scan
(`main.rs` lines 426-456); `none` for every non-note event. -/
def TrackEventKind.channel_key : TrackEventKind → Option (ℕ × ℕ)
  | .midi channel (.noteOn key _) => some (channel, key)
  | .midi channel (.noteOff key _) => some (channel, key)
  | _ => none

/-! ### Document model (`src/sv_model.rs`)

Optional XML attributes that no engine code reads (`level` on points; `name`,
`start`, `end`, `file`, `mainModel`, `dimensions`, `resolution`,
`notifyOnAdd`, `subtype`, `valueQuantization`, `minimum`, `maximum`, `units`
on models; `plugins` on play parameters; the `display`/`selections` stubs)
are omitted. -/

structure SvPoint where
  frame : ℕ
  value : Option ℕ
  duration : Option ℕ
  label : String
deriving DecidableEq

structure SvLayer where
  id : ℕ
  type : String
  name : String
  model : ℕ
  presentation_name : Option String
deriving DecidableEq

structure SvModel where
  id : ℕ
  sample_rate : ℕ
  dataset : Option ℕ
deriving DecidableEq

structure SvPlayParameters where
  mute : Bool
  pan : ℚ
  gain : ℚ
  clip_id : String
  model : ℕ
deriving DecidableEq

structure SvDataset where
  id : ℕ
  dimensions : ℕ
  points : List SvPoint
deriving DecidableEq

structure SvData where
  models : List SvModel
  play_parameters : List SvPlayParameters
  layers : List SvLayer
  datasets : List SvDataset
deriving DecidableEq

structure SvDocument where
  data : SvData
deriving DecidableEq

/-- `sv_model.rs`: `SvDocument::get_model_by_id`. -/
def SvDocument.get_model_by_id (doc : SvDocument) (id : ℕ) : Option SvModel :=
  doc.data.models.find? (fun model => model.id == id)

/-- `sv_model.rs`: `SvDocument::get_dataset_by_id`. -/
def SvDocument.get_dataset_by_id (doc : SvDocument) (id : ℕ) : Option SvDataset :=
  doc.data.datasets.find? (fun dataset => dataset.id == id)

/-- `sv_model.rs`: `SvDocument::get_play_parameters_by_id` (keyed on the
`model` field of the play-parameters record). -/
def SvDocument.get_play_parameters_by_id (doc : SvDocument) (id : ℕ) :
    Option SvPlayParameters :=
  doc.data.play_parameters.find? (fun play_parameters => play_parameters.model == id)

/-- Modelled from the spec: `SvDocument::get_layers_by_type` is called by
`main.rs` but its definition is not among the sources under `src/`; §4.3 of
the spec describes its result as "the ordered list of `notes`-typed layers as
they appear in the document", so it is modelled as an order-preserving filter
of the document's layer list by the type tag. -/
def SvDocument.get_layers_by_type (doc : SvDocument) (layer_type : String) : List SvLayer :=
  doc.data.layers.filter (fun layer => layer.type == layer_type)

/-- `sv_model.rs`: `SvLayer::midi_name` (presentation name, falling back to
the raw name). -/
def SvLayer.midi_name (layer : SvLayer) : String :=
  match layer.presentation_name with
  | some presentation_name => presentation_name
  | none => layer.name

/-- `sv_model.rs`: `SvPlayParameters::midi_program` (fixed clip-id table,
default 0). -/
def SvPlayParameters.midi_program (p : SvPlayParameters) : ℕ :=
  match p.clip_id with
  | "piano" => 0
  | "elecpiano" => 5
  | "organ" => 17
  | "beep" => 80
  | _ => 0

/-- `sv_model.rs`: `SvPlayParameters::midi_drum_note` (fixed clip-id table,
default 0). -/
def SvPlayParameters.midi_drum_note (p : SvPlayParameters) : ℕ :=
  match p.clip_id with
  | "bass" => 35
  | "bounce" => 27
  | "clap" => 39
  | "click" => 33
  | "cowbell" => 56
  | "hihat" => 42
  | "kick" => 41
  | "silent" => 0
  | "snare" => 38
  | "stick" => 30
  | "strike" => 49
  | "tap" => 32
  | _ => 0

/-! ### Timebase (`src/utils.rs`) -/

/-- `utils.rs`: `Seconds` is a wrapped `f64`, modelled as ℚ. -/
abbrev Seconds := ℚ

/-- `utils.rs`: `Seconds::new(frame, sample_rate) = frame / sample_rate`.
The source `assert!(sample_rate > 0)` appears as a hypothesis where needed. -/
def Seconds.new (frame sample_rate : ℕ) : Seconds :=
  (frame : ℚ) / (sample_rate : ℚ)

/-- `utils.rs`: `Seconds::as_midi_ticks`:
`(self.0 * (midi_bpm / 60.0) * (midi_ticks_per_beat as f64)) as usize`.
The source asserts `midi_bpm > 0.0` and `midi_ticks_per_beat > 0`; those
appear as hypotheses where needed. -/
def Seconds.as_midi_ticks (s : Seconds) (midi_bpm : ℚ) (midi_ticks_per_beat : ℕ) : ℕ :=
  (Int.floor (s * (midi_bpm / 60) * (midi_ticks_per_beat : ℚ))).toNat

/-! ### Constants (`src/main.rs`) -/

def MIDI_DRUM_CHANNEL : ℕ := 9
def MIDI_VELOCITY_DEFAULT : ℕ := 64
def MIDI_VELOCITY_NONE : ℕ := 0
def MIDI_CONTROLLER_VOLUME : ℕ := 7
def MIDI_CONTROLLER_PAN : ℕ := 10
def MIDI_MAX_POLYPHONY : ℕ := 24

/-! ### Channel assignment (`main.rs` lines 59-74) -/

/-- The channel-number pool of `main.rs` line 64: every channel except the
drum channel 9. -/
def midi_channel_numbers : List ℕ := [0, 1, 2, 3, 4, 5, 6, 7, 8, 10, 11, 12, 13, 14, 15]

/-- `main.rs` lines 64-68: zipping the channel pool with the `notes` layers;
`zip` truncates to the shorter list, so layers beyond the 15th are dropped. -/
def sv_notes_layers (doc : SvDocument) : List (ℕ × SvLayer) :=
  midi_channel_numbers.zip (doc.get_layers_by_type "notes")

/-- `main.rs` lines 59-62: the "more notes layers than available MIDI
channels" warning block runs exactly once, when the notes-layer count
exceeds 15. -/
def too_many_notes_layers_warning_count (doc : SvDocument) : ℕ :=
  if 15 < (doc.get_layers_by_type "notes").length then 1 else 0

def sv_instants_layers (doc : SvDocument) : List SvLayer :=
  doc.get_layers_by_type "timeinstants"

def sv_text_layers (doc : SvDocument) : List SvLayer :=
  doc.get_layers_by_type "text"

/-! ### Absolute events and the projector (`main.rs` lines 168-379) -/

/-- `main.rs` lines 170-199, minus the diagnostics-only `seconds` field (see
the module comment). -/
structure AbsoluteTrackEvent where
  ticks : ℕ
  ticks_event_start : ℕ
  kind : TrackEventKind
deriving DecidableEq

instance : Inhabited AbsoluteTrackEvent :=
  ⟨{ ticks := 0, ticks_event_start := 0, kind := .meta .endOfTrack }⟩

/-- Structural `List.mapM` over `Except`, used to model the source's
panicking iterator pipelines: the first point that panics aborts the whole
conversion. -/
def mapE (f : α → Except String β) : List α → Except String (List β)
  | [] => .ok []
  | a :: l =>
    match f a with
    | .error e => .error e
    | .ok b =>
      match mapE f l with
      | .error e => .error e
      | .ok bs => .ok (b :: bs)

/-- `main.rs` lines 213-277: projection of one notes-layer point into its
NoteOn/NoteOff pair.  The `expect`s on the mandatory `value` and `duration`
fields become `Except.error`; `key as u8` wraps modulo 256. -/
def project_notes_point (channel : ℕ) (model : SvModel) (midi_bpm : ℚ)
    (midi_ticks_per_beat : ℕ) (point : SvPoint) :
    Except String (AbsoluteTrackEvent × AbsoluteTrackEvent) :=
  match point.value with
  | none => .error "notes layer point has no value specified"
  | some key =>
    match point.duration with
    | none => .error "notes layer point has no duration specified"
    | some duration =>
      let seconds_note_on := Seconds.new point.frame model.sample_rate
      let seconds_note_off := Seconds.new (point.frame + duration) model.sample_rate
      let ticks_note_on := seconds_note_on.as_midi_ticks midi_bpm midi_ticks_per_beat
      let ticks_note_off := seconds_note_off.as_midi_ticks midi_bpm midi_ticks_per_beat
      .ok
        ({ ticks := ticks_note_on
           ticks_event_start := ticks_note_on
           kind := .midi channel (.noteOn (key % 256) MIDI_VELOCITY_DEFAULT) },
         { ticks := ticks_note_off
           ticks_event_start := ticks_note_on  -- Not a typo
           kind := .midi channel (.noteOff (key % 256) MIDI_VELOCITY_NONE) })

/-- `main.rs` lines 234-240: the "collapsed note" warning fires once per
notes-layer point with `duration <= 1` (when both mandatory fields are
present). -/
def collapsed_note_warning_count (point : SvPoint) : ℕ :=
  match point.value, point.duration with
  | some _, some duration => if duration ≤ 1 then 1 else 0
  | _, _ => 0

/-- `main.rs` lines 203-279: projection of a whole notes layer (model /
dataset resolution, then the per-point pairs, flattened in point order). -/
def project_notes_layer (doc : SvDocument) (midi_bpm : ℚ) (midi_ticks_per_beat : ℕ)
    (channel : ℕ) (notes_layer : SvLayer) : Except String (List AbsoluteTrackEvent) :=
  match doc.get_model_by_id notes_layer.model with
  | none => .error "notes layer doesn't have model specified"
  | some model =>
    match model.dataset with
    | none => .error "model doesn't have dataset specified"
    | some dataset_id =>
      match doc.get_dataset_by_id dataset_id with
      | none => .error "dataset doesn't exist"
      | some dataset =>
        match mapE (project_notes_point channel model midi_bpm midi_ticks_per_beat)
            dataset.points with
        | .error e => .error e
        | .ok pairs => .ok (pairs.flatMap (fun pair => [pair.1, pair.2]))

/-- `main.rs` lines 297-343: projection of one instants-layer point; the
NoteOff is the NoteOn shifted by `midi_ticks_per_beat / 4` (integer
division). -/
def project_instants_point (key : ℕ) (model : SvModel) (midi_bpm : ℚ)
    (midi_ticks_per_beat : ℕ) (point : SvPoint) :
    AbsoluteTrackEvent × AbsoluteTrackEvent :=
  let seconds_note_on := Seconds.new point.frame model.sample_rate
  let length_ticks := midi_ticks_per_beat / 4
  let ticks_note_on := seconds_note_on.as_midi_ticks midi_bpm midi_ticks_per_beat
  let ticks_note_off := ticks_note_on + length_ticks
  ({ ticks := ticks_note_on
     ticks_event_start := ticks_note_on
     kind := .midi MIDI_DRUM_CHANNEL (.noteOn key MIDI_VELOCITY_DEFAULT) },
   { ticks := ticks_note_off
     ticks_event_start := ticks_note_on  -- Not a typo
     kind := .midi MIDI_DRUM_CHANNEL (.noteOff key MIDI_VELOCITY_NONE) })

/-- `main.rs` lines 281-344: projection of a whole instants layer. -/
def project_instants_layer (doc : SvDocument) (midi_bpm : ℚ) (midi_ticks_per_beat : ℕ)
    (instants_layer : SvLayer) : Except String (List AbsoluteTrackEvent) :=
  match doc.get_model_by_id instants_layer.model with
  | none => .error "instants layer doesn't have model specified"
  | some model =>
    match model.dataset with
    | none => .error "model doesn't have dataset specified"
    | some dataset_id =>
      match doc.get_dataset_by_id dataset_id with
      | none => .error "dataset doesn't exist"
      | some dataset =>
        match doc.get_play_parameters_by_id instants_layer.model with
        | none => .error "failed to find play parameters"
        | some play_parameters =>
          let key := play_parameters.midi_drum_note
          .ok ((dataset.points.map
              (project_instants_point key model midi_bpm midi_ticks_per_beat)).flatMap
            (fun pair => [pair.1, pair.2]))

/-- `main.rs` lines 346-379: projection of a whole text layer (one `Text`
meta event per point, anchored at its own tick). -/
def project_text_layer (doc : SvDocument) (midi_bpm : ℚ) (midi_ticks_per_beat : ℕ)
    (text_layer : SvLayer) : Except String (List AbsoluteTrackEvent) :=
  match doc.get_model_by_id text_layer.model with
  | none => .error "text layer doesn't have model specified"
  | some model =>
    match model.dataset with
    | none => .error "model doesn't have dataset specified"
    | some dataset_id =>
      match doc.get_dataset_by_id dataset_id with
      | none => .error "dataset doesn't exist"
      | some dataset =>
        .ok (dataset.points.map (fun point =>
          let seconds_text := Seconds.new point.frame model.sample_rate
          let ticks_text := seconds_text.as_midi_ticks midi_bpm midi_ticks_per_beat
          { ticks := ticks_text
            ticks_event_start := ticks_text
            kind := .meta (.text point.label) }))

/-- `main.rs` lines 201-379: the unsorted union of all projected events, in
generation order (notes layers in channel-assignment order, then instants
layers, then text layers). -/
def absolute_track_events (doc : SvDocument) (midi_bpm : ℚ)
    (midi_ticks_per_beat : ℕ) : Except String (List AbsoluteTrackEvent) :=
  match mapE (fun assignment =>
      project_notes_layer doc midi_bpm midi_ticks_per_beat assignment.1 assignment.2)
      (sv_notes_layers doc) with
  | .error e => .error e
  | .ok notes_events =>
    match mapE (project_instants_layer doc midi_bpm midi_ticks_per_beat)
        (sv_instants_layers doc) with
    | .error e => .error e
    | .ok instants_events =>
      match mapE (project_text_layer doc midi_bpm midi_ticks_per_beat)
          (sv_text_layers doc) with
      | .error e => .error e
      | .ok text_events =>
        .ok (notes_events.flatten ++ instants_events.flatten ++ text_events.flatten)

/-! ### Event sequencing (`main.rs` lines 381-396) -/

/-- `main.rs` lines 389-394: the composite sort key
`(ticks, ticks_event_start, !kind.is_note_on(), !kind.is_note_off())`.
Rust `bool` ordering (`false < true`) is embedded via `Bool.toNat`. -/
def sortKey (e : AbsoluteTrackEvent) : ℕ × ℕ × ℕ × ℕ :=
  (e.ticks, e.ticks_event_start, (!e.kind.is_note_on).toNat, (!e.kind.is_note_off).toNat)

/-- Strict lexicographic order on the sort key (Rust tuple `Ord`). -/
def keyLt (a b : ℕ × ℕ × ℕ × ℕ) : Prop :=
  a.1 < b.1 ∨ (a.1 = b.1 ∧ (a.2.1 < b.2.1 ∨ (a.2.1 = b.2.1 ∧
    (a.2.2.1 < b.2.2.1 ∨ (a.2.2.1 = b.2.2.1 ∧ a.2.2.2 < b.2.2.2)))))

/-- Reflexive lexicographic order on the sort key. -/
def keyLe (a b : ℕ × ℕ × ℕ × ℕ) : Prop :=
  keyLt a b ∨ a = b

instance : DecidableRel keyLt := fun a b => by
  unfold keyLt
  exact inferInstance

instance : DecidableRel keyLe := fun a b => by
  unfold keyLe
  exact inferInstance

/-- Comparison of events by their sort key. -/
def eventLe (a b : AbsoluteTrackEvent) : Prop :=
  keyLe (sortKey a) (sortKey b)

instance : DecidableRel eventLe := fun a b => by
  unfold eventLe
  exact inferInstance

/-- `main.rs` lines 381-396: `absolute_track_events.sort_by_key(...)`.
Rust's `sort_by_key` is a stable sort by a total preorder; stability and
sortedness determine the permutation uniquely, so it is modelled by the
stable `List.insertionSort` over the same key order. -/
def sequenceEvents (events : List AbsoluteTrackEvent) : List AbsoluteTrackEvent :=
  events.insertionSort eventLe

/-! ### Validation scans (`main.rs` lines 398-457) -/

/-- `main.rs` lines 398-421: the polyphony scan.  `+1` per NoteOn, `-1` per
NoteOff; the source's `assert!(current_polyphony > 0)` before a decrement is
the `Except.error` branch.  (The excessive-polyphony warning is a pure side
effect of the same counter and is not needed by any claim below.) -/
def polyScan : List AbsoluteTrackEvent → ℕ → Except String ℕ
  | [], current_polyphony => .ok current_polyphony
  | event :: rest, current_polyphony =>
    let after_on := if event.kind.is_note_on then current_polyphony + 1 else current_polyphony
    if event.kind.is_note_off then
      if 0 < after_on then polyScan rest (after_on - 1)
      else .error "assertion failed: current_polyphony > 0"
    else polyScan rest after_on

/-- `main.rs` lines 423-457: the per-`(channel, key)` overlap scan.  The
`HashMap` (whose scan maintains the invariant "entry present ⟺ count > 0":
entries are created at count 1 and removed when they reach 0) is modelled as
a total function with absent ≡ 0; the `expect("failed to get note count")`
on a missing entry and the `assert!(*note_count > 0)` coincide in the model
as the `count = 0` error branch. -/
def noteCountScan : List AbsoluteTrackEvent → ((ℕ × ℕ) → ℕ) →
    Except String ((ℕ × ℕ) → ℕ)
  | [], current_note_counts => .ok current_note_counts
  | event :: rest, current_note_counts =>
    match event.kind with
    | .midi channel (.noteOn key _) =>
      noteCountScan rest (fun p =>
        if p = (channel, key) then current_note_counts p + 1 else current_note_counts p)
    | .midi channel (.noteOff key _) =>
      if 0 < current_note_counts (channel, key) then
        noteCountScan rest (fun p =>
          if p = (channel, key) then current_note_counts p - 1 else current_note_counts p)
      else .error "failed to get note count"
    | _ => noteCountScan rest current_note_counts

/-! ### Delta encoding (`main.rs` lines 459-477) and track header
(`main.rs` lines 83-166) -/

/-- `main.rs` lines 459-471 restricted to the tick column: the delta-time of
event 0 is `0` under `--trim-leading-silence` and its absolute tick
otherwise; every later delta is the difference to the previous tick (the
source asserts `ticks_before <= ticks_current` first). -/
def deltaSuffix (prev : ℕ) : List ℕ → List ℕ
  | [] => []
  | t :: rest => (t - prev) :: deltaSuffix t rest

def deltaTimes (trim_leading_silence : Bool) : List ℕ → List ℕ
  | [] => []
  | t :: rest =>
    (if trim_leading_silence then 0 else t) :: deltaSuffix t rest

/-- Re-accumulation of a delta list into absolute ticks (running sums). -/
def accumDeltas (acc : ℕ) : List ℕ → List ℕ
  | [] => []
  | d :: rest => (acc + d) :: accumDeltas (acc + d) rest

/-- Rust `as u32` on a non-negative `f64`: truncate toward zero, saturating
at `u32::MAX`. -/
def rust_f64_as_u32 (x : ℚ) : ℕ :=
  min (Int.floor x).toNat 4294967295

/-- Rust `as u8` on an `f64`: truncate toward zero, saturating at the `u8`
bounds (for negative inputs both truncation and `Int.toNat ∘ Int.floor`
saturate to 0). -/
def rust_f64_as_u8 (x : ℚ) : ℕ :=
  min (Int.floor x).toNat 255

/-- `main.rs` line 90: the tempo value `(60_000_000.0 / midi_bpm) as u32`,
before the `u24::from` conversion (see `u24_from`). -/
def tempo_micros_per_beat (midi_bpm : ℚ) : ℕ :=
  rust_f64_as_u32 (60000000 / midi_bpm)

/-- `midly`'s `u24::from(u32)` conversion used at `main.rs` line 89: the
restricted integer wrappers of `midly::num` mask the raw value to their bit
width, so a `u24` payload keeps only the low 24 bits. -/
def u24_from (n : ℕ) : ℕ :=
  n % 16777216

/-- Modelled from the spec (§4.6): the spec instead derives the tempo value
as `round(60_000_000 / bpm)` microseconds per beat.  This definition follows
the spec's words and is compared against the source's
`tempo_micros_per_beat` above. -/
def tempo_micros_per_beat_spec (midi_bpm : ℚ) : ℕ :=
  (round ((60000000 : ℚ) / midi_bpm)).toNat

/-- `main.rs` lines 94-160: the per-channel setup events for one assigned
notes layer (channel select, instrument name, program change, the
volume-zero controller when muted, then the pan controller). -/
def channel_setup_events (doc : SvDocument) (assignment : ℕ × SvLayer) :
    Except String (List TrackEventKind) :=
  match doc.get_play_parameters_by_id assignment.2.model with
  | none => .error "failed to find play parameters"
  | some play_parameters =>
    .ok ([.meta (.midiChannel assignment.1),
          .meta (.instrumentName assignment.2.midi_name),
          .midi assignment.1 (.programChange play_parameters.midi_program)] ++
      (if play_parameters.mute then
        [.midi assignment.1 (.controller MIDI_CONTROLLER_VOLUME 0)]
      else []) ++
      [.midi assignment.1 (.controller MIDI_CONTROLLER_PAN
        (rust_f64_as_u8 (64 + play_parameters.pan * (127/2 : ℚ))))])

/-- `main.rs` lines 83-166: the header block of the single track — the tempo
meta event `Tempo(u24::from((60_000_000.0 / midi_bpm) as u32))` pushed first,
then the per-channel setup in channel-assignment order.  (The drum channel
receives no initialization.) -/
def midi_track_header (doc : SvDocument) (midi_bpm : ℚ) :
    Except String (List TrackEventKind) :=
  match mapE (channel_setup_events doc) (sv_notes_layers doc) with
  | .error e => .error e
  | .ok setups =>
    .ok (.meta (.tempo (u24_from (tempo_micros_per_beat midi_bpm))) :: setups.flatten)

/-! ### Auxiliary predicates for the overlap scan -/

/-- NoteOn on a specific `(channel, key)` pair. -/
def is_note_on_ck (ch k : ℕ) (e : AbsoluteTrackEvent) : Bool :=
  match e.kind with
  | .midi c (.noteOn key _) => c == ch && key == k
  | _ => false

/-- NoteOff on a specific `(channel, key)` pair. -/
def is_note_off_ck (ch k : ℕ) (e : AbsoluteTrackEvent) : Bool :=
  match e.kind with
  | .midi c (.noteOff key _) => c == ch && key == k
  | _ => false

/-- The channel of a MIDI channel-voice event, `none` for meta events. -/
def TrackEventKind.channel? : TrackEventKind → Option ℕ
  | .midi channel _ => some channel
  | .meta _ => none

/-! ### Concrete inputs used by counterexamples and witnesses -/

/-- A model at 48000 Hz with no dataset reference (projection of single
points never consults the dataset field). -/
def sample_model : SvModel := { id := 1, sample_rate := 48000, dataset := none }

/-- A zero-length instants point at frame 0. -/
def sample_instant_point : SvPoint := { frame := 0, value := none, duration := none, label := "" }

/-- Boundary-case document: note A (layer 101, channel 0) is a zero-length
note at frame 0; note B (layer 102, channel 1) starts at frame 0 and lasts
48000 frames (one second). -/
def c1_doc : SvDocument :=
  { data :=
    { models := [{ id := 1, sample_rate := 48000, dataset := some 11 },
                 { id := 2, sample_rate := 48000, dataset := some 12 }]
      play_parameters := []
      layers := [{ id := 101, type := "notes", name := "A", model := 1, presentation_name := none },
                 { id := 102, type := "notes", name := "B", model := 2, presentation_name := none }]
      datasets := [{ id := 11, dimensions := 2,
                     points := [{ frame := 0, value := some 60, duration := some 0, label := "" }] },
                   { id := 12, dimensions := 2,
                     points := [{ frame := 0, value := some 62, duration := some 48000, label := "" }] }] } }

def c1_a_on : AbsoluteTrackEvent :=
  { ticks := 0, ticks_event_start := 0, kind := .midi 0 (.noteOn 60 64) }

def c1_a_off : AbsoluteTrackEvent :=
  { ticks := 0, ticks_event_start := 0, kind := .midi 0 (.noteOff 60 0) }

def c1_b_on : AbsoluteTrackEvent :=
  { ticks := 0, ticks_event_start := 0, kind := .midi 1 (.noteOn 62 64) }

def c1_b_off : AbsoluteTrackEvent :=
  { ticks := 2048, ticks_event_start := 0, kind := .midi 1 (.noteOff 62 0) }

/-- The projected (unsorted) event list of `c1_doc`. -/
def c1_events : List AbsoluteTrackEvent := [c1_a_on, c1_a_off, c1_b_on, c1_b_off]

/-- What the sequencer makes of `c1_events`: B's NoteOn ends up *before*
A's NoteOff. -/
def c1_sorted : List AbsoluteTrackEvent := [c1_a_on, c1_b_on, c1_a_off, c1_b_off]

/-- Document with 16 notes layers (one more than assignable channels). -/
def c6_doc : SvDocument :=
  { data :=
    { models := []
      play_parameters := []
      layers := List.replicate 16
        ({ id := 1, type := "notes", name := "L", model := 1, presentation_name := none })
      datasets := [] } }

/-- Document whose single notes-layer point is missing its mandatory
`duration` field. -/
def c9_doc : SvDocument :=
  { data :=
    { models := [{ id := 1, sample_rate := 48000, dataset := some 5 }]
      play_parameters := []
      layers := [{ id := 7, type := "notes", name := "L", model := 1, presentation_name := none }]
      datasets := [{ id := 5, dimensions := 2,
                     points := [{ frame := 0, value := some 60, duration := none, label := "" }] }] } }

def c9_layer : SvLayer :=
  { id := 7, type := "notes", name := "L", model := 1, presentation_name := none }

def c9_point : SvPoint := { frame := 0, value := some 60, duration := none, label := "" }

/-- Document with no layers at all (used for the header witness). -/
def empty_doc : SvDocument :=
  { data := { models := [], play_parameters := [], layers := [], datasets := [] } }

/-- The C8 example model: 48000 Hz. -/
def c8_model : SvModel := { id := 1, sample_rate := 48000, dataset := some 10 }

/-- The C8 example point: frame 0, value 60, duration 24000 frames. -/
def c8_point : SvPoint := { frame := 0, value := some 60, duration := some 24000, label := "" }

/-! ### Helper lemmas: the sort-key order -/

theorem keyLe_total (a b : ℕ × ℕ × ℕ × ℕ) : keyLe a b ∨ keyLe b a := by
  obtain ⟨a1, a2, a3, a4⟩ := a
  obtain ⟨b1, b2, b3, b4⟩ := b
  simp only [keyLe, keyLt, Prod.mk.injEq]
  omega

theorem keyLe_trans (a b c : ℕ × ℕ × ℕ × ℕ) (h1 : keyLe a b) (h2 : keyLe b c) : keyLe a c := by
  obtain ⟨a1, a2, a3, a4⟩ := a
  obtain ⟨b1, b2, b3, b4⟩ := b
  obtain ⟨c1, c2, c3, c4⟩ := c
  simp only [keyLe, keyLt, Prod.mk.injEq] at h1 h2 ⊢
  omega

theorem keyLt_irrefl (a : ℕ × ℕ × ℕ × ℕ) : ¬ keyLt a a := by
  obtain ⟨a1, a2, a3, a4⟩ := a
  simp only [keyLt]
  omega

theorem keyLe_keyLt_asymm (a b : ℕ × ℕ × ℕ × ℕ) (h1 : keyLe a b) (h2 : keyLt b a) : False := by
  obtain ⟨a1, a2, a3, a4⟩ := a
  obtain ⟨b1, b2, b3, b4⟩ := b
  simp only [keyLe, keyLt, Prod.mk.injEq] at h1 h2
  omega

instance : IsTotal AbsoluteTrackEvent eventLe := ⟨fun a b => keyLe_total (sortKey a) (sortKey b)⟩

instance : IsTrans AbsoluteTrackEvent eventLe :=
  ⟨fun a b c => keyLe_trans (sortKey a) (sortKey b) (sortKey c)⟩

theorem sequenceEvents_sorted (events : List AbsoluteTrackEvent) :
    (sequenceEvents events).Sorted eventLe :=
  List.sorted_insertionSort eventLe events

theorem eventLe_ticks_le {a b : AbsoluteTrackEvent} (h : eventLe a b) : a.ticks ≤ b.ticks := by
  simp only [eventLe, keyLe, keyLt, sortKey, Prod.mk.injEq] at h
  omega

/-- In a list sorted by the composite key, an event with a strictly smaller
key sits at a strictly smaller index. -/
theorem sorted_keyLt_index_lt (l : List AbsoluteTrackEvent) (hs : l.Sorted eventLe)
    (i j : ℕ) (hi : i < l.length) (hj : j < l.length)
    (hlt : keyLt (sortKey (l.getD i default)) (sortKey (l.getD j default))) : i < j := by
  by_contra hij
  push_neg at hij
  rcases Nat.eq_or_lt_of_le hij with heq | hji
  · subst heq
    exact keyLt_irrefl _ hlt
  · have hle : eventLe (l.getD j default) (l.getD i default) := by
      rw [List.getD_eq_getElem l default hi, List.getD_eq_getElem l default hj]
      exact List.pairwise_iff_getElem.mp hs j i hj hi hji
    exact keyLe_keyLt_asymm _ _ hle hlt

/-! ### Helper lemmas: event kinds -/

theorem is_note_off_eq_false_of_on {k : TrackEventKind} (h : k.is_note_on = true) :
    k.is_note_off = false := by
  cases k with
  | midi ch msg =>
    cases msg <;> simp_all [TrackEventKind.is_note_on, TrackEventKind.is_note_off]
  | meta m => simp_all [TrackEventKind.is_note_on]

theorem is_note_on_eq_false_of_off {k : TrackEventKind} (h : k.is_note_off = true) :
    k.is_note_on = false := by
  cases k with
  | midi ch msg =>
    cases msg <;> simp_all [TrackEventKind.is_note_on, TrackEventKind.is_note_off]
  | meta m => simp_all [TrackEventKind.is_note_off]

/-- A NoteOn's key never equals a NoteOff's key: their third components
(`!is_note_on`) differ. -/
theorem sortKey_ne_of_on_off {a b : AbsoluteTrackEvent} (ha : a.kind.is_note_on = true)
    (hb : b.kind.is_note_off = true) : sortKey a ≠ sortKey b := by
  have hb2 : b.kind.is_note_on = false := is_note_on_eq_false_of_off hb
  simp only [sortKey, ha, hb2, Prod.mk.injEq]
  simp

theorem is_note_off_ck_spec {ch k : ℕ} {e : AbsoluteTrackEvent}
    (h : is_note_off_ck ch k e = true) :
    e.kind.is_note_off = true ∧ e.kind.channel_key = some (ch, k) := by
  unfold is_note_off_ck at h
  cases hek : e.kind with
  | midi c msg =>
    cases msg <;> rw [hek] at h <;>
      simp_all [TrackEventKind.is_note_off, TrackEventKind.channel_key]
  | meta m => rw [hek] at h; cases h

theorem is_note_on_ck_of {ch k : ℕ} {e : AbsoluteTrackEvent}
    (hon : e.kind.is_note_on = true) (hck : e.kind.channel_key = some (ch, k)) :
    is_note_on_ck ch k e = true := by
  unfold is_note_on_ck
  cases hek : e.kind with
  | midi c msg =>
    cases msg <;> rw [hek] at hon hck <;>
      simp_all [TrackEventKind.is_note_on, TrackEventKind.channel_key]
  | meta m => rw [hek] at hon; cases hon

/-! ### Helper lemmas: `mapE` -/

theorem mapE_error_of_mem {α β : Type} {f : α → Except String β} {l : List α} {a : α}
    (hmem : a ∈ l) (ha : ∃ e, f a = .error e) : ∃ e, mapE f l = .error e := by
  induction l with
  | nil => cases hmem
  | cons b l ih =>
    cases hfb : f b with
    | error e => exact ⟨e, by simp [mapE, hfb]⟩
    | ok v =>
      have hmem2 : a ∈ l := by
        rcases List.mem_cons.mp hmem with rfl | h
        · obtain ⟨e, he⟩ := ha
          rw [hfb] at he
          cases he
        · exact h
      obtain ⟨e, he⟩ := ih hmem2
      exact ⟨e, by simp [mapE, hfb, he]⟩

/-! ### Helper lemmas: zip truncation -/

theorem zip_snd_take {α β : Type} :
    ∀ (l1 : List α) (l2 : List β), (l1.zip l2).map Prod.snd = l2.take l1.length
  | [], _ => by simp
  | _ :: _, [] => by simp
  | a :: l1, b :: l2 => by simp [zip_snd_take l1 l2]

theorem zip_fst_take {α β : Type} :
    ∀ (l1 : List α) (l2 : List β), (l1.zip l2).map Prod.fst = l1.take l2.length
  | [], _ => by simp
  | _ :: _, [] => by simp
  | a :: l1, b :: l2 => by simp [zip_fst_take l1 l2]

theorem zip_take_right {α β : Type} :
    ∀ (l1 : List α) (l2 : List β), l1.zip (l2.take l1.length) = l1.zip l2
  | [], _ => by simp
  | _ :: _, [] => by simp
  | a :: l1, b :: l2 => by simp [zip_take_right l1 l2]

/-! ### Helper lemmas: timebase monotonicity -/

theorem Seconds.new_mono {f1 f2 : ℕ} (sample_rate : ℕ) (h : f1 ≤ f2) :
    Seconds.new f1 sample_rate ≤ Seconds.new f2 sample_rate := by
  unfold Seconds.new
  rcases Nat.eq_zero_or_pos sample_rate with h0 | hpos
  · simp [h0]
  · have hc : (0 : ℚ) < (sample_rate : ℚ) := by exact_mod_cast hpos
    exact (div_le_div_iff_of_pos_right hc).mpr (by exact_mod_cast h)

theorem as_midi_ticks_mono {s1 s2 : Seconds} (midi_bpm : ℚ) (midi_ticks_per_beat : ℕ)
    (hbpm : 0 < midi_bpm) (hs : s1 ≤ s2) :
    s1.as_midi_ticks midi_bpm midi_ticks_per_beat ≤
      s2.as_midi_ticks midi_bpm midi_ticks_per_beat := by
  unfold Seconds.as_midi_ticks
  have hmul : s1 * (midi_bpm / 60) * (midi_ticks_per_beat : ℚ) ≤
      s2 * (midi_bpm / 60) * (midi_ticks_per_beat : ℚ) := by
    have h1 : s1 * (midi_bpm / 60) ≤ s2 * (midi_bpm / 60) :=
      mul_le_mul_of_nonneg_right hs (by positivity)
    exact mul_le_mul_of_nonneg_right h1 (by positivity)
  exact Int.toNat_le_toNat (Int.floor_le_floor hmul)

/-! ### Claim C2 — percussion instants and positive length -/

/-- C2 counterexample: with the positive resolution `midi_ticks_per_beat = 1`
the synthesized instant length `1 / 4` truncates to `0`, so the NoteOff tick
is *not* strictly greater than the NoteOn tick: the projected percussion pair
is zero-length. -/
theorem c2_zero_length_counterexample :
    0 < 1 ∧
    ¬ ((project_instants_point 41 sample_model 120 1 sample_instant_point).1.ticks <
        (project_instants_point 41 sample_model 120 1 sample_instant_point).2.ticks) := by
  refine ⟨by decide, ?_⟩
  simp only [project_instants_point]
  omega

/-- C2 (amended): for every instants-layer point and every
`midi_ticks_per_beat ≥ 4` (so that the synthesized thirty-second-note length
`midi_ticks_per_beat / 4` is non-zero), the projected NoteOff's tick is
strictly greater than the NoteOn's tick; with `midi_ticks_per_beat < 4` the
pair collapses to zero length (the source's "insufficient resolution" case). -/
theorem instants_pair_positive_length (key : ℕ) (model : SvModel) (midi_bpm : ℚ)
    (midi_ticks_per_beat : ℕ) (point : SvPoint) (h : 4 ≤ midi_ticks_per_beat) :
    (project_instants_point key model midi_bpm midi_ticks_per_beat point).1.ticks <
      (project_instants_point key model midi_bpm midi_ticks_per_beat point).2.ticks := by
  simp only [project_instants_point]
  omega

theorem instants_pair_positive_length_witness :
    4 ≤ 4 ∧
    (project_instants_point 41 sample_model 120 4 sample_instant_point).1.ticks <
      (project_instants_point 41 sample_model 120 4 sample_instant_point).2.ticks :=
  ⟨by decide, instants_pair_positive_length 41 sample_model 120 4 sample_instant_point (by decide)⟩

/-! ### Claim C3 — delta-encoding round trip -/

theorem deltaSuffix_accum (t0 : ℕ) :
    ∀ (prev : ℕ) (rest : List ℕ), t0 ≤ prev → List.Chain (· ≤ ·) prev rest →
      accumDeltas (prev - t0) (deltaSuffix prev rest) = rest.map (fun t => t - t0)
  | _, [], _, _ => rfl
  | prev, t :: rest, ht0, hchain => by
    cases hchain with
    | cons hle hchain2 =>
      simp only [deltaSuffix, accumDeltas, List.map]
      have h1 : prev - t0 + (t - prev) = t - t0 := by omega
      rw [h1, deltaSuffix_accum t0 t rest (by omega) hchain2]

/-- C3 counterexample: for the non-decreasing tick sequence `[5, 10]` with
trimming enabled the emitted deltas are `[0, 5]`, which re-accumulate to
`[0, 5]` — not to `[0, 10]` as the claim ("all other absolute ticks are
reproduced unchanged") requires. -/
theorem c3_trim_roundtrip_counterexample :
    List.Chain' (· ≤ ·) [5, 10] ∧
    accumDeltas 0 (deltaTimes true [5, 10]) = [0, 5] ∧
    ¬ accumDeltas 0 (deltaTimes true [5, 10]) = [0, 10] := by
  refine ⟨?_, by decide, by decide⟩
  simp [List.chain'_cons]

/-- C3 (amended): re-accumulating the emitted body deltas reproduces the
original absolute tick sequence exactly when trimming is disabled; when
trimming is enabled the whole sequence is shifted down by the first event's
absolute tick (the first entry becomes 0 and every later entry is
`tick[i] - tick[0]`). -/
theorem delta_roundtrip (trim_leading_silence : Bool) (ticks : List ℕ)
    (hsorted : ticks.Chain' (· ≤ ·)) :
    accumDeltas 0 (deltaTimes trim_leading_silence ticks) =
      if trim_leading_silence then ticks.map (fun t => t - ticks.headD 0) else ticks := by
  cases ticks with
  | nil => cases trim_leading_silence <;> rfl
  | cons t0 rest =>
    have hchain : List.Chain (· ≤ ·) t0 rest := hsorted
    cases trim_leading_silence with
    | false =>
      have h := deltaSuffix_accum 0 t0 rest (Nat.zero_le _) hchain
      simp only [Nat.sub_zero] at h
      simp [deltaTimes, accumDeltas, h]
    | true =>
      have h := deltaSuffix_accum t0 t0 rest le_rfl hchain
      simp only [Nat.sub_self] at h
      simp [deltaTimes, accumDeltas, h, List.headD]

theorem delta_roundtrip_witness :
    List.Chain' (· ≤ ·) [3, 7, 9] ∧
    accumDeltas 0 (deltaTimes true [3, 7, 9]) =
      if true then [3, 7, 9].map (fun t => t - [3, 7, 9].headD 0) else [3, 7, 9] :=
  ⟨by simp [List.chain'_cons], delta_roundtrip true [3, 7, 9] (by simp [List.chain'_cons])⟩

/-! ### Claim C4 — the header tempo event -/

/-- C4 counterexample: at `midi_bpm = 7` the source computes
`(60_000_000.0 / 7.0) as u32 = 8571428` (truncation toward zero) and the
`u24` payload keeps it unchanged (it is below 2^24), while the spec's
`round(60_000_000 / bpm)` is `8571429`. -/
theorem c4_tempo_rounding_counterexample :
    (0 : ℚ) < 7 ∧ tempo_micros_per_beat 7 ≠ tempo_micros_per_beat_spec 7 ∧
      u24_from (tempo_micros_per_beat 7) = 8571428 := by
  have h1 : Int.floor ((60000000 : ℚ) / 7) = 8571428 := by
    norm_num [Int.floor_eq_iff]
  have h2 : round ((60000000 : ℚ) / 7) = 8571429 := by
    rw [round_eq]
    norm_num [Int.floor_eq_iff]
  have hv : tempo_micros_per_beat 7 = 8571428 := by
    unfold tempo_micros_per_beat rust_f64_as_u32
    rw [h1]
    decide
  refine ⟨by decide, ?_, by rw [hv]; decide⟩
  rw [hv]
  unfold tempo_micros_per_beat_spec
  rw [h2]
  decide

/-- C4 (amended): for every `midi_bpm ≥ 4` — where `trunc(60_000_000 / bpm)`
fits the Tempo event's `u24` payload, so the `u24::from` mask is the
identity — the tempo meta-event emitted first in the track header carries
`trunc(60_000_000 / midi_bpm)` microseconds per beat: the greatest integer
not exceeding the exact quotient, not the rounded quotient.  (For smaller
bpm the truncated quotient exceeds `u24::MAX = 16777215` and the emitted
payload is its low 24 bits.) -/
theorem tempo_event_leads_header (doc : SvDocument) (midi_bpm : ℚ) (h : 4 ≤ midi_bpm)
    (header : List TrackEventKind) (hok : midi_track_header doc midi_bpm = .ok header) :
    header.head? = some (.meta (.tempo (tempo_micros_per_beat midi_bpm))) ∧
    tempo_micros_per_beat midi_bpm < 16777216 ∧
    (tempo_micros_per_beat midi_bpm : ℚ) ≤ 60000000 / midi_bpm ∧
    (60000000 : ℚ) / midi_bpm < tempo_micros_per_beat midi_bpm + 1 := by
  have hb0 : (0 : ℚ) < midi_bpm := lt_of_lt_of_le (by norm_num) h
  have hq0 : (0 : ℚ) ≤ 60000000 / midi_bpm := by positivity
  have hqle : (60000000 : ℚ) / midi_bpm ≤ 15000000 := by
    rw [div_le_iff₀ hb0]
    linarith
  have hfle : Int.floor ((60000000 : ℚ) / midi_bpm) ≤ 15000000 := by
    have h2 := Int.floor_le_floor hqle
    rw [show ((15000000 : ℚ)) = ((15000000 : ℤ) : ℚ) by norm_num, Int.floor_intCast] at h2
    exact h2
  have hf0 : 0 ≤ Int.floor ((60000000 : ℚ) / midi_bpm) := Int.floor_nonneg.mpr hq0
  have hval : tempo_micros_per_beat midi_bpm =
      (Int.floor ((60000000 : ℚ) / midi_bpm)).toNat := by
    unfold tempo_micros_per_beat rust_f64_as_u32
    exact Nat.min_eq_left (Int.toNat_le.mpr (le_trans hfle (by norm_num)))
  have hlt24 : tempo_micros_per_beat midi_bpm < 16777216 := by
    rw [hval]
    have := Int.toNat_le.mpr hfle
    omega
  have hu24 : u24_from (tempo_micros_per_beat midi_bpm) = tempo_micros_per_beat midi_bpm := by
    unfold u24_from
    exact Nat.mod_eq_of_lt hlt24
  have hcast : ((tempo_micros_per_beat midi_bpm : ℕ) : ℚ) =
      ((Int.floor ((60000000 : ℚ) / midi_bpm) : ℤ) : ℚ) := by
    rw [hval]
    exact_mod_cast congrArg (fun z : ℤ => (z : ℚ)) (Int.toNat_of_nonneg hf0)
  refine ⟨?_, hlt24, ?_, ?_⟩
  · unfold midi_track_header at hok
    cases hsetups : mapE (channel_setup_events doc) (sv_notes_layers doc) with
    | error e => rw [hsetups] at hok; cases hok
    | ok setups =>
      rw [hsetups] at hok
      cases hok
      simp [hu24]
  · rw [hcast]
    exact Int.floor_le _
  · rw [hcast]
    exact Int.lt_floor_add_one _

theorem tempo_event_leads_header_witness :
    (4 : ℚ) ≤ 120 ∧
    ([TrackEventKind.meta (.tempo (u24_from (tempo_micros_per_beat 120)))].head? =
      some (.meta (.tempo (tempo_micros_per_beat 120))) ∧
    tempo_micros_per_beat 120 < 16777216 ∧
    (tempo_micros_per_beat 120 : ℚ) ≤ 60000000 / 120 ∧
    (60000000 : ℚ) / 120 < tempo_micros_per_beat 120 + 1) :=
  ⟨by decide, tempo_event_leads_header empty_doc 120 (by decide)
    [TrackEventKind.meta (.tempo (u24_from (tempo_micros_per_beat 120)))] rfl⟩

/-! ### Claim C8 — the concrete tick-quantization example -/

/-- C8: with sample rate 48000, bpm 120 and 1024 ticks per beat, the
notes-layer point at frame 0 with duration 24000 projects to a NoteOn at
tick 0 and a NoteOff at tick 1024, and the tick function is the floor of
`seconds * (bpm/60) * ticks_per_beat` (0.5 s × 2 beats/s × 1024 = 1024). -/
theorem c8_example_projection :
    (project_notes_point 0 c8_model 120 1024 c8_point).map
        (fun pair => (pair.1.ticks, pair.2.ticks)) = .ok (0, 1024) ∧
    Int.floor (((24000 : ℚ) / 48000) * (120 / 60) * 1024) = 1024 := by
  have h0 : Seconds.as_midi_ticks (Seconds.new 0 48000) 120 1024 = 0 := by
    unfold Seconds.as_midi_ticks Seconds.new
    norm_num
  have h1 : Seconds.as_midi_ticks (Seconds.new 24000 48000) 120 1024 = 1024 := by
    unfold Seconds.as_midi_ticks Seconds.new
    norm_num [Int.floor_eq_iff]
    decide
  refine ⟨?_, by norm_num⟩
  simp [project_notes_point, Except.map, c8_model, c8_point, h0, h1]

/-! ### Claim C9 — missing mandatory point fields are fatal -/

theorem project_notes_point_missing_field (channel : ℕ) (model : SvModel) (midi_bpm : ℚ)
    (midi_ticks_per_beat : ℕ) (point : SvPoint)
    (hbad : point.value = none ∨ point.duration = none) :
    ∃ e, project_notes_point channel model midi_bpm midi_ticks_per_beat point = .error e := by
  cases hv : point.value with
  | none =>
    exact ⟨"notes layer point has no value specified", by simp [project_notes_point, hv]⟩
  | some key =>
    have hd : point.duration = none := by
      rcases hbad with h | h
      · rw [hv] at h; cases h
      · exact h
    exact ⟨"notes layer point has no duration specified",
      by simp [project_notes_point, hv, hd]⟩

/-- C9: projecting a notes layer whose dataset contains a point lacking its
`value` or its `duration` aborts the conversion with a fatal error (no event
list is produced for the run). -/
theorem missing_note_field_aborts (doc : SvDocument) (channel : ℕ) (layer : SvLayer)
    (model : SvModel) (dataset_id : ℕ) (dataset : SvDataset) (point : SvPoint)
    (midi_bpm : ℚ) (midi_ticks_per_beat : ℕ)
    (hmodel : doc.get_model_by_id layer.model = some model)
    (hdid : model.dataset = some dataset_id)
    (hds : doc.get_dataset_by_id dataset_id = some dataset)
    (hmem : point ∈ dataset.points)
    (hbad : point.value = none ∨ point.duration = none) :
    ∃ e, project_notes_layer doc midi_bpm midi_ticks_per_beat channel layer = .error e := by
  obtain ⟨e, he⟩ := mapE_error_of_mem hmem
    (project_notes_point_missing_field channel model midi_bpm midi_ticks_per_beat point hbad)
  refine ⟨e, ?_⟩
  simp only [project_notes_layer, hmodel, hdid, hds, he]

theorem missing_note_field_aborts_witness :
    (c9_point.value = none ∨ c9_point.duration = none) ∧
    (∃ e, project_notes_layer c9_doc 120 1024 0 c9_layer = .error e) :=
  ⟨Or.inr rfl,
    missing_note_field_aborts c9_doc 0 c9_layer
      { id := 1, sample_rate := 48000, dataset := some 5 } 5
      { id := 5, dimensions := 2, points := [c9_point] } c9_point 120 1024
      (by decide) (by decide) (by decide) (by decide) (Or.inr rfl)⟩

/-! ### Claim C6 — channel assignment and layer dropping -/

/-- C6: channel assignment.  Always: the assigned layers are exactly the
first 15 `notes` layers in document order, the assigned channel numbers are
pairwise distinct and never the reserved drum channel 9, and the projector
input (`sv_notes_layers`) literally only contains the first 15 layers, so a
layer beyond the 15th is never projected and never reaches the output.
With at most 15 notes layers every layer is assigned and no diagnostic is
emitted; with more than 15 exactly one "too many note layers" diagnostic is
emitted. -/
theorem channel_assignment_behaviour (doc : SvDocument) :
    ((sv_notes_layers doc).map Prod.snd = (doc.get_layers_by_type "notes").take 15) ∧
    (sv_notes_layers doc =
      midi_channel_numbers.zip ((doc.get_layers_by_type "notes").take 15)) ∧
    ((sv_notes_layers doc).map Prod.fst).Nodup ∧
    (9 ∉ (sv_notes_layers doc).map Prod.fst) ∧
    ((doc.get_layers_by_type "notes").length ≤ 15 →
      (sv_notes_layers doc).map Prod.snd = doc.get_layers_by_type "notes" ∧
      too_many_notes_layers_warning_count doc = 0) ∧
    (15 < (doc.get_layers_by_type "notes").length →
      too_many_notes_layers_warning_count doc = 1) := by
  have hsnd : (sv_notes_layers doc).map Prod.snd =
      (doc.get_layers_by_type "notes").take 15 :=
    zip_snd_take midi_channel_numbers (doc.get_layers_by_type "notes")
  have hfst : (sv_notes_layers doc).map Prod.fst =
      midi_channel_numbers.take (doc.get_layers_by_type "notes").length :=
    zip_fst_take midi_channel_numbers (doc.get_layers_by_type "notes")
  have hnodup : midi_channel_numbers.Nodup := by decide
  refine ⟨hsnd, ?_, ?_, ?_, ?_, ?_⟩
  · exact (zip_take_right midi_channel_numbers (doc.get_layers_by_type "notes")).symm
  · rw [hfst]
    exact hnodup.sublist (List.take_sublist _ _)
  · rw [hfst]
    intro hmem
    have h9 : 9 ∈ midi_channel_numbers := (List.take_sublist _ _).mem hmem
    revert h9
    decide
  · intro hlen
    refine ⟨?_, ?_⟩
    · rw [hsnd]
      exact List.take_of_length_le hlen
    · unfold too_many_notes_layers_warning_count
      rw [if_neg (by omega)]
  · intro hlen
    unfold too_many_notes_layers_warning_count
    rw [if_pos hlen]

theorem channel_assignment_behaviour_witness :
    15 < (c6_doc.get_layers_by_type "notes").length ∧
    too_many_notes_layers_warning_count c6_doc = 1 :=
  ⟨by decide, (channel_assignment_behaviour c6_doc).2.2.2.2.2 (by decide)⟩

/-! ### Claim C7 — notes-layer pair invariants -/

/-- C7: for every notes-layer point whose projection succeeds (both `value`
and `duration` present) under a positive bpm, the NoteOn's tick is at most
the NoteOff's tick (the source's `assert!(ticks_note_on <= ticks_note_off)`
never fires), and the NoteOff's anchor (`ticks_event_start`) equals the
paired NoteOn's tick — as does the NoteOn's own anchor. -/
theorem notes_pair_invariant (channel : ℕ) (model : SvModel) (midi_bpm : ℚ)
    (midi_ticks_per_beat : ℕ) (point : SvPoint) (onE offE : AbsoluteTrackEvent)
    (hbpm : 0 < midi_bpm)
    (hok : project_notes_point channel model midi_bpm midi_ticks_per_beat point =
      .ok (onE, offE)) :
    onE.ticks ≤ offE.ticks ∧ offE.ticks_event_start = onE.ticks ∧
      onE.ticks_event_start = onE.ticks := by
  cases hv : point.value with
  | none => simp [project_notes_point, hv] at hok
  | some key =>
    cases hd : point.duration with
    | none => simp [project_notes_point, hv, hd] at hok
    | some duration =>
      simp only [project_notes_point, hv, hd, Except.ok.injEq, Prod.mk.injEq] at hok
      obtain ⟨h1, h2⟩ := hok
      subst h1
      subst h2
      refine ⟨?_, rfl, rfl⟩
      exact as_midi_ticks_mono midi_bpm midi_ticks_per_beat hbpm
        (Seconds.new_mono model.sample_rate (Nat.le_add_right point.frame duration))

theorem notes_pair_invariant_witness :
    (0 : ℚ) < 120 ∧
    ((AbsoluteTrackEvent.mk 0 0 (.midi 0 (.noteOn 60 64))).ticks ≤
      (AbsoluteTrackEvent.mk 0 0 (.midi 0 (.noteOff 60 0))).ticks ∧
    (AbsoluteTrackEvent.mk 0 0 (.midi 0 (.noteOff 60 0))).ticks_event_start =
      (AbsoluteTrackEvent.mk 0 0 (.midi 0 (.noteOn 60 64))).ticks ∧
    (AbsoluteTrackEvent.mk 0 0 (.midi 0 (.noteOn 60 64))).ticks_event_start =
      (AbsoluteTrackEvent.mk 0 0 (.midi 0 (.noteOn 60 64))).ticks) :=
  ⟨by decide,
    notes_pair_invariant 0 sample_model 120 1024
      { frame := 0, value := some 60, duration := some 0, label := "" }
      (AbsoluteTrackEvent.mk 0 0 (.midi 0 (.noteOn 60 64)))
      (AbsoluteTrackEvent.mk 0 0 (.midi 0 (.noteOff 60 0)))
      (by decide)
      (by simp [project_notes_point, Seconds.as_midi_ticks, Seconds.new, sample_model,
        MIDI_VELOCITY_DEFAULT, MIDI_VELOCITY_NONE])⟩

/-! ### Claim C5 — the sequenced list is non-decreasing in tick -/

/-- C5: for every input event list, the sequenced (sorted) list is
non-decreasing in `tick`; consequently for every non-initial event the
difference `tick[i] - tick[i-1]` of the delta encoder is computed from
`tick[i-1] ≤ tick[i]` (the source's `assert!(ticks_before <= ticks_current)`
never fires and every emitted delta is non-negative). -/
theorem sequenced_nondecreasing (events : List AbsoluteTrackEvent) :
    (sequenceEvents events).Pairwise (fun a b => a.ticks ≤ b.ticks) ∧
    ∀ i, i + 1 < (sequenceEvents events).length →
      ((sequenceEvents events).getD i default).ticks ≤
        ((sequenceEvents events).getD (i + 1) default).ticks := by
  have hs := sequenceEvents_sorted events
  have hp : (sequenceEvents events).Pairwise (fun a b => a.ticks ≤ b.ticks) :=
    List.Pairwise.imp (fun h => eventLe_ticks_le h) hs
  refine ⟨hp, fun i hi => ?_⟩
  have hi0 : i < (sequenceEvents events).length := by omega
  rw [List.getD_eq_getElem _ default hi0, List.getD_eq_getElem _ default hi]
  exact List.pairwise_iff_getElem.mp hp i (i + 1) hi0 hi (by omega)

theorem sequenced_nondecreasing_witness :
    0 + 1 < (sequenceEvents [⟨3, 3, .meta (.text "a")⟩, ⟨1, 1, .meta (.text "b")⟩]).length ∧
    ((sequenceEvents
        [⟨3, 3, .meta (.text "a")⟩, ⟨1, 1, .meta (.text "b")⟩]).getD 0 default).ticks ≤
      ((sequenceEvents
        [⟨3, 3, .meta (.text "a")⟩, ⟨1, 1, .meta (.text "b")⟩]).getD (0 + 1) default).ticks :=
  ⟨by decide,
    (sequenced_nondecreasing [⟨3, 3, .meta (.text "a")⟩, ⟨1, 1, .meta (.text "b")⟩]).2 0
      (by decide)⟩

/-! ### Claim C1 — NoteOff before NoteOn at a shared boundary tick -/

/-- C1 (amended): if in the sequenced list a NoteOff and a NoteOn share the
same tick `T` (being on different channels), and the ending note *started
strictly before* `T` (its anchor tick is `< T`; the NoteOn's anchor is its
own tick `T`), then the NoteOff is sequenced before the NoteOn.  Without the
strict-anchor condition this fails: a zero-length note whose NoteOff also
anchors at `T` sorts *after* a NoteOn at `T` (see the counterexample). -/
theorem noteoff_closes_before_noteon (events : List AbsoluteTrackEvent) (i j T : ℕ)
    (hi : i < (sequenceEvents events).length)
    (hj : j < (sequenceEvents events).length)
    (hoff : ((sequenceEvents events).getD i default).kind.is_note_off = true)
    (hon : ((sequenceEvents events).getD j default).kind.is_note_on = true)
    (hti : ((sequenceEvents events).getD i default).ticks = T)
    (htj : ((sequenceEvents events).getD j default).ticks = T)
    (hanchor_i : ((sequenceEvents events).getD i default).ticks_event_start < T)
    (hanchor_j : ((sequenceEvents events).getD j default).ticks_event_start = T)
    (hch : ((sequenceEvents events).getD i default).kind.channel? ≠
      ((sequenceEvents events).getD j default).kind.channel?) :
    i < j := by
  apply sorted_keyLt_index_lt _ (sequenceEvents_sorted events) i j hi hj
  simp only [keyLt, sortKey]
  omega

theorem noteoff_closes_before_noteon_witness :
    ((sequenceEvents [AbsoluteTrackEvent.mk 5 3 (.midi 0 (.noteOff 60 0)),
        AbsoluteTrackEvent.mk 5 5 (.midi 1 (.noteOn 62 64))]).getD 0
      default).kind.is_note_off = true ∧
    0 < 1 :=
  ⟨by decide,
    noteoff_closes_before_noteon
      [AbsoluteTrackEvent.mk 5 3 (.midi 0 (.noteOff 60 0)),
       AbsoluteTrackEvent.mk 5 5 (.midi 1 (.noteOn 62 64))] 0 1 5
      (by decide) (by decide) (by decide) (by decide) (by decide) (by decide) (by decide)
      (by decide) (by decide)⟩

/-- C1 counterexample: in `c1_doc`, note A (channel 0) is a zero-length note
ending at tick 0 and note B (channel 1) starts at tick 0.  The run projects
`c1_events` and sequences them as `c1_sorted`, in which B's NoteOn (index 1)
precedes A's NoteOff (index 2): an ending NoteOff and a starting NoteOn on
different channels at the same tick are *not* always sequenced
NoteOff-first. -/
theorem c1_boundary_counterexample :
    (absolute_track_events c1_doc 120 1024).map sequenceEvents = .ok c1_sorted ∧
    c1_sorted.getD 1 default = c1_b_on ∧
    c1_sorted.getD 2 default = c1_a_off ∧
    c1_a_off.ticks = c1_b_on.ticks ∧
    c1_a_off.kind.is_note_off = true ∧
    c1_b_on.kind.is_note_on = true ∧
    c1_a_off.kind.channel? ≠ c1_b_on.kind.channel? := by
  have t0 : Seconds.as_midi_ticks (Seconds.new 0 48000) 120 1024 = 0 := by
    unfold Seconds.as_midi_ticks Seconds.new
    norm_num
  have t1 : Seconds.as_midi_ticks (Seconds.new 48000 48000) 120 1024 = 2048 := by
    unfold Seconds.as_midi_ticks Seconds.new
    norm_num [Int.floor_eq_iff]
    decide
  have hstage1 : absolute_track_events c1_doc 120 1024 = .ok c1_events := by
    simp [absolute_track_events, sv_notes_layers, sv_instants_layers, sv_text_layers,
      SvDocument.get_layers_by_type, c1_doc, midi_channel_numbers, project_notes_layer,
      SvDocument.get_model_by_id, SvDocument.get_dataset_by_id, mapE, project_notes_point,
      t0, t1, c1_events, c1_a_on, c1_a_off, c1_b_on, c1_b_off, MIDI_VELOCITY_DEFAULT,
      MIDI_VELOCITY_NONE, List.find?, List.filter]
  have hstage2 : sequenceEvents c1_events = c1_sorted := by decide
  refine ⟨?_, by decide, by decide, by decide, by decide, by decide, by decide⟩
  rw [hstage1]
  simp [Except.map, hstage2]

/-! ### Claim C10 — machinery: counting events in a scan's past -/

/-- Counting with a predicate over the first `j` list entries equals the
cardinality of the matching index set. -/
theorem countP_take_card (p : AbsoluteTrackEvent → Bool) (l : List AbsoluteTrackEvent) :
    ∀ j, j ≤ l.length →
      (l.take j).countP p =
        ((Finset.range j).filter (fun i => p (l.getD i default) = true)).card := by
  intro j
  induction j with
  | zero => intro _; simp
  | succ n ih =>
    intro hn
    have hn' : n ≤ l.length := by omega
    have hlt : n < l.length := by omega
    have hgl : l[n]? = some (l.getD n default) := by
      rw [List.getD_eq_getElem l default hlt]
      exact List.getElem?_eq_getElem hlt
    rw [List.take_succ, hgl]
    simp only [Option.toList_some]
    rw [List.countP_append, ih hn', Finset.range_succ, Finset.filter_insert]
    simp only [List.countP_cons, List.countP_nil]
    by_cases hp : p (l.getD n default) = true
    · rw [if_pos hp, if_pos hp, Finset.card_insert_of_not_mem (by simp)]
    · rw [if_neg hp, if_neg hp]
      omega

/-- If every index `i ≤ j` satisfying `Q` is matched to an earlier index
satisfying `P`, injectively, and `j` itself satisfies `Q`, then strictly
fewer indices below `j` satisfy `Q` than satisfy `P`. -/
theorem card_lt_of_matching (j : ℕ) (P Q : ℕ → Prop) [DecidablePred P] [DecidablePred Q]
    (m : ℕ → ℕ) (hQj : Q j)
    (hm : ∀ i, i ≤ j → Q i → m i < i ∧ P (m i))
    (hinj : ∀ i1 i2, i1 ≤ j → i2 ≤ j → Q i1 → Q i2 → m i1 = m i2 → i1 = i2) :
    ((Finset.range j).filter Q).card < ((Finset.range j).filter P).card := by
  have hcard : ((Finset.range (j + 1)).filter Q).card ≤ ((Finset.range j).filter P).card := by
    apply Finset.card_le_card_of_injOn m
    · intro i hi
      simp only [Finset.mem_filter, Finset.mem_range] at hi ⊢
      obtain ⟨hij, hQ⟩ := hi
      obtain ⟨hmi, hP⟩ := hm i (by omega) hQ
      exact ⟨by omega, hP⟩
    · intro i1 h1 i2 h2 heq
      simp only [Finset.coe_filter, Set.mem_setOf_eq, Finset.mem_range] at h1 h2
      exact hinj i1 i2 (by omega) (by omega) h1.2 h2.2 heq
  have hsucc : ((Finset.range (j + 1)).filter Q).card =
      ((Finset.range j).filter Q).card + 1 := by
    rw [Finset.range_succ, Finset.filter_insert, if_pos hQj,
      Finset.card_insert_of_not_mem (by simp)]
  omega

/-- The polyphony scan succeeds whenever, at every NoteOff, the NoteOns seen
so far strictly outnumber the NoteOffs seen so far (offset by the starting
count `c`). -/
theorem polyScan_ok (l : List AbsoluteTrackEvent) :
    ∀ (c : ℕ),
      (∀ j, j < l.length → (l.getD j default).kind.is_note_off = true →
        (l.take j).countP (fun e => e.kind.is_note_off) <
          c + (l.take j).countP (fun e => e.kind.is_note_on)) →
      ∃ final, polyScan l c = .ok final := by
  induction l with
  | nil => exact fun c _ => ⟨c, rfl⟩
  | cons e rest ih =>
    intro c h
    by_cases hoff : e.kind.is_note_off = true
    · have hon : e.kind.is_note_on = false := is_note_on_eq_false_of_off hoff
      have hc : 0 < c := by
        have h0 := h 0 (by simp) (by simpa using hoff)
        simpa using h0
      have heq : polyScan (e :: rest) c = polyScan rest (c - 1) := by
        simp [polyScan, hon, hoff, hc]
      rw [heq]
      apply ih
      intro j hj hoffj
      have hstep := h (j + 1) (by simp only [List.length_cons]; omega)
        (by simpa [List.getD_cons_succ] using hoffj)
      simp [List.take_succ_cons, List.countP_cons, hon, hoff] at hstep
      omega
    · have hoff2 : e.kind.is_note_off = false := by
        revert hoff
        cases e.kind.is_note_off <;> simp
      by_cases hon : e.kind.is_note_on = true
      · have heq : polyScan (e :: rest) c = polyScan rest (c + 1) := by
          simp [polyScan, hon, hoff2]
        rw [heq]
        apply ih
        intro j hj hoffj
        have hstep := h (j + 1) (by simp only [List.length_cons]; omega)
          (by simpa [List.getD_cons_succ] using hoffj)
        simp [List.take_succ_cons, List.countP_cons, hon, hoff2] at hstep
        omega
      · have hon2 : e.kind.is_note_on = false := by
          revert hon
          cases e.kind.is_note_on <;> simp
        have heq : polyScan (e :: rest) c = polyScan rest c := by
          simp [polyScan, hon2, hoff2]
        rw [heq]
        apply ih
        intro j hj hoffj
        have hstep := h (j + 1) (by simp only [List.length_cons]; omega)
          (by simpa [List.getD_cons_succ] using hoffj)
        simp [List.take_succ_cons, List.countP_cons, hon2, hoff2] at hstep
        omega

/-- The per-`(channel, key)` overlap scan succeeds whenever, at every NoteOff
on some `(channel, key)`, the NoteOns on that pair seen so far strictly
outnumber its NoteOffs seen so far (offset by the starting counts). -/
theorem noteCountScan_ok (l : List AbsoluteTrackEvent) :
    ∀ (counts : (ℕ × ℕ) → ℕ),
      (∀ j, j < l.length → ∀ ch k, is_note_off_ck ch k (l.getD j default) = true →
        (l.take j).countP (is_note_off_ck ch k) <
          counts (ch, k) + (l.take j).countP (is_note_on_ck ch k)) →
      ∃ final, noteCountScan l counts = .ok final := by
  induction l with
  | nil => exact fun counts _ => ⟨counts, rfl⟩
  | cons e rest ih =>
    intro counts h
    cases hek : e.kind with
    | midi ch0 msg =>
      cases msg with
      | noteOn k0 v =>
        have heq : noteCountScan (e :: rest) counts =
            noteCountScan rest
              (fun p => if p = (ch0, k0) then counts p + 1 else counts p) := by
          simp [noteCountScan, hek]
        rw [heq]
        apply ih
        intro j hj ch k hoffj
        have hstep := h (j + 1) (by simp only [List.length_cons]; omega) ch k
          (by simpa [List.getD_cons_succ] using hoffj)
        have hoffe : is_note_off_ck ch k e = false := by
          simp [is_note_off_ck, hek]
        by_cases hck : ch0 = ch ∧ k0 = k
        · obtain ⟨rfl, rfl⟩ := hck
          have hone : is_note_on_ck ch0 k0 e = true := by
            simp [is_note_on_ck, hek]
          simp [List.take_succ_cons, List.countP_cons, hoffe, hone] at hstep
          rw [if_pos rfl]
          omega
        · have hone : is_note_on_ck ch k e = false := by
            simp only [is_note_on_ck, hek]
            simp only [Bool.and_eq_false_iff, beq_eq_false_iff_ne, ne_eq]
            tauto
          have hcond : ¬((ch, k) = (ch0, k0)) := by
            simp only [Prod.mk.injEq]
            tauto
          rw [if_neg hcond]
          simp [List.take_succ_cons, List.countP_cons, hoffe, hone] at hstep
          omega
      | noteOff k0 v =>
        have hc : 0 < counts (ch0, k0) := by
          have h0 := h 0 (by simp) ch0 k0 (by simp [is_note_off_ck, hek])
          simpa using h0
        have heq : noteCountScan (e :: rest) counts =
            noteCountScan rest
              (fun p => if p = (ch0, k0) then counts p - 1 else counts p) := by
          simp [noteCountScan, hek, hc]
        rw [heq]
        apply ih
        intro j hj ch k hoffj
        have hstep := h (j + 1) (by simp only [List.length_cons]; omega) ch k
          (by simpa [List.getD_cons_succ] using hoffj)
        have hone : is_note_on_ck ch k e = false := by
          simp [is_note_on_ck, hek]
        by_cases hck : ch0 = ch ∧ k0 = k
        · obtain ⟨rfl, rfl⟩ := hck
          have hoffe : is_note_off_ck ch0 k0 e = true := by
            simp [is_note_off_ck, hek]
          simp [List.take_succ_cons, List.countP_cons, hoffe, hone] at hstep
          rw [if_pos rfl]
          omega
        · have hoffe : is_note_off_ck ch k e = false := by
            simp only [is_note_off_ck, hek]
            simp only [Bool.and_eq_false_iff, beq_eq_false_iff_ne, ne_eq]
            tauto
          have hcond : ¬((ch, k) = (ch0, k0)) := by
            simp only [Prod.mk.injEq]
            tauto
          rw [if_neg hcond]
          simp [List.take_succ_cons, List.countP_cons, hoffe, hone] at hstep
          omega
      | programChange prog =>
        have heq : noteCountScan (e :: rest) counts = noteCountScan rest counts := by
          simp [noteCountScan, hek]
        rw [heq]
        apply ih
        intro j hj ch k hoffj
        have hstep := h (j + 1) (by simp only [List.length_cons]; omega) ch k
          (by simpa [List.getD_cons_succ] using hoffj)
        have hoffe : is_note_off_ck ch k e = false := by
          simp [is_note_off_ck, hek]
        have hone : is_note_on_ck ch k e = false := by
          simp [is_note_on_ck, hek]
        simp [List.take_succ_cons, List.countP_cons, hoffe, hone] at hstep
        omega
      | controller ctrl v =>
        have heq : noteCountScan (e :: rest) counts = noteCountScan rest counts := by
          simp [noteCountScan, hek]
        rw [heq]
        apply ih
        intro j hj ch k hoffj
        have hstep := h (j + 1) (by simp only [List.length_cons]; omega) ch k
          (by simpa [List.getD_cons_succ] using hoffj)
        have hoffe : is_note_off_ck ch k e = false := by
          simp [is_note_off_ck, hek]
        have hone : is_note_on_ck ch k e = false := by
          simp [is_note_on_ck, hek]
        simp [List.take_succ_cons, List.countP_cons, hoffe, hone] at hstep
        omega
    | meta msg =>
      have heq : noteCountScan (e :: rest) counts = noteCountScan rest counts := by
        simp [noteCountScan, hek]
      rw [heq]
      apply ih
      intro j hj ch k hoffj
      have hstep := h (j + 1) (by simp only [List.length_cons]; omega) ch k
        (by simpa [List.getD_cons_succ] using hoffj)
      have hoffe : is_note_off_ck ch k e = false := by
        simp [is_note_off_ck, hek]
      have hone : is_note_on_ck ch k e = false := by
        simp [is_note_on_ck, hek]
      simp [List.take_succ_cons, List.countP_cons, hoffe, hone] at hstep
      omega

/-- C10: if (as the projector guarantees) every NoteOff of the sequenced
list is matched — injectively — to a NoteOn on the same `(channel, key)`
whose sort key orders it no later, then both validation scans run to
completion on the sorted list: the `assert!(current_polyphony > 0)` and the
`expect("failed to get note count")` / `assert!(*note_count > 0)` branches
are unreachable. -/
theorem validation_scans_succeed (events : List AbsoluteTrackEvent) (m : ℕ → ℕ)
    (hpair : ∀ j, j < (sequenceEvents events).length →
      ((sequenceEvents events).getD j default).kind.is_note_off = true →
      m j < (sequenceEvents events).length ∧
      ((sequenceEvents events).getD (m j) default).kind.is_note_on = true ∧
      ((sequenceEvents events).getD (m j) default).kind.channel_key =
        ((sequenceEvents events).getD j default).kind.channel_key ∧
      keyLe (sortKey ((sequenceEvents events).getD (m j) default))
        (sortKey ((sequenceEvents events).getD j default)))
    (hinj : ∀ j1, j1 < (sequenceEvents events).length →
      ∀ j2, j2 < (sequenceEvents events).length →
      ((sequenceEvents events).getD j1 default).kind.is_note_off = true →
      ((sequenceEvents events).getD j2 default).kind.is_note_off = true →
      m j1 = m j2 → j1 = j2) :
    (∃ final, polyScan (sequenceEvents events) 0 = .ok final) ∧
    (∃ final, noteCountScan (sequenceEvents events) (fun _ => 0) = .ok final) := by
  set l := sequenceEvents events with hl
  have hsorted : l.Sorted eventLe := sequenceEvents_sorted events
  have hmlt : ∀ i, i < l.length → (l.getD i default).kind.is_note_off = true →
      m i < i ∧ (l.getD (m i) default).kind.is_note_on = true ∧
      (l.getD (m i) default).kind.channel_key = (l.getD i default).kind.channel_key := by
    intro i hi hoffi
    obtain ⟨hmn, hmon, hmck, hmle⟩ := hpair i hi hoffi
    have hne : sortKey (l.getD (m i) default) ≠ sortKey (l.getD i default) :=
      sortKey_ne_of_on_off hmon hoffi
    have hklt : keyLt (sortKey (l.getD (m i) default)) (sortKey (l.getD i default)) := by
      rcases hmle with hlt2 | heq2
      · exact hlt2
      · exact absurd heq2 hne
    exact ⟨sorted_keyLt_index_lt l hsorted (m i) i hmn hi hklt, hmon, hmck⟩
  constructor
  · apply polyScan_ok l 0
    intro j hj hoffj
    rw [countP_take_card (fun e => e.kind.is_note_off) l j (le_of_lt hj),
      countP_take_card (fun e => e.kind.is_note_on) l j (le_of_lt hj)]
    have hm : ∀ i, i ≤ j → ((l.getD i default).kind.is_note_off = true) →
        m i < i ∧ ((l.getD (m i) default).kind.is_note_on = true) := by
      intro i hij hQi
      have hi : i < l.length := by omega
      obtain ⟨hlt2, hon2, _⟩ := hmlt i hi hQi
      exact ⟨hlt2, hon2⟩
    have hinj2 : ∀ i1 i2, i1 ≤ j → i2 ≤ j →
        ((l.getD i1 default).kind.is_note_off = true) →
        ((l.getD i2 default).kind.is_note_off = true) → m i1 = m i2 → i1 = i2 := by
      intro i1 i2 h1 h2 hq1 hq2 heq
      exact hinj i1 (by omega) i2 (by omega) hq1 hq2 heq
    have hcard := card_lt_of_matching j
      (fun i => (l.getD i default).kind.is_note_on = true)
      (fun i => (l.getD i default).kind.is_note_off = true) m hoffj hm hinj2
    omega
  · apply noteCountScan_ok l (fun _ => 0)
    intro j hj ch k hoffckj
    show (l.take j).countP (is_note_off_ck ch k) < 0 + (l.take j).countP (is_note_on_ck ch k)
    rw [countP_take_card (is_note_off_ck ch k) l j (le_of_lt hj),
      countP_take_card (is_note_on_ck ch k) l j (le_of_lt hj)]
    have hm : ∀ i, i ≤ j → (is_note_off_ck ch k (l.getD i default) = true) →
        m i < i ∧ (is_note_on_ck ch k (l.getD (m i) default) = true) := by
      intro i hij hQi
      have hi : i < l.length := by omega
      obtain ⟨hoffi, hcki⟩ := is_note_off_ck_spec hQi
      obtain ⟨hlt2, hon2, hck2⟩ := hmlt i hi hoffi
      refine ⟨hlt2, is_note_on_ck_of hon2 ?_⟩
      rw [hck2, hcki]
    have hinj2 : ∀ i1 i2, i1 ≤ j → i2 ≤ j →
        (is_note_off_ck ch k (l.getD i1 default) = true) →
        (is_note_off_ck ch k (l.getD i2 default) = true) → m i1 = m i2 → i1 = i2 := by
      intro i1 i2 h1 h2 hq1 hq2 heq
      exact hinj i1 (by omega) i2 (by omega) (is_note_off_ck_spec hq1).1
        (is_note_off_ck_spec hq2).1 heq
    have hcard := card_lt_of_matching j
      (fun i => is_note_on_ck ch k (l.getD i default) = true)
      (fun i => is_note_off_ck ch k (l.getD i default) = true) m hoffckj hm hinj2
    omega

theorem validation_scans_succeed_witness :
    (∃ final, polyScan (sequenceEvents
      [AbsoluteTrackEvent.mk 0 0 (.midi 0 (.noteOn 60 64)),
       AbsoluteTrackEvent.mk 1 0 (.midi 0 (.noteOff 60 0))]) 0 = .ok final) ∧
    (∃ final, noteCountScan (sequenceEvents
      [AbsoluteTrackEvent.mk 0 0 (.midi 0 (.noteOn 60 64)),
       AbsoluteTrackEvent.mk 1 0 (.midi 0 (.noteOff 60 0))]) (fun _ => 0) = .ok final) :=
  validation_scans_succeed
    [AbsoluteTrackEvent.mk 0 0 (.midi 0 (.noteOn 60 64)),
     AbsoluteTrackEvent.mk 1 0 (.midi 0 (.noteOff 60 0))] (fun _ => 0)
    (by decide) (by decide)
